import Mathlib

/-!
Verification of the core pipeline of the sensu-sumologic-handler
(src/main.go): timestamp normalization, metric exposition encoding,
dispatch routing between the metric and log deliveries, and the two
delivery operations with their dry-run mode.

Machine integers are modelled as `Int` with explicit 64-bit wrap-around
where Go's int64 arithmetic can overflow; Go's integer division (which
truncates toward zero) is `Int.tdiv`.  Strings are Lean `String`s; the
`%v` rendering of a metric point's float64 value and the `json.Marshal`
output for the opaque event record are carried as already-rendered
string fields, since their formatting is outside the pipeline under
study.
-/

namespace SumoHandler

/-- 64-bit two's-complement wrap-around, the value an overflowing Go
int64 computation actually produces. -/
def wrap64 (x : Int) : Int := (x + 2 ^ 63) % 2 ^ 64 - 2 ^ 63

/-- Go's `/` on int64: division truncating toward zero. -/
def goDiv (a b : Int) : Int := a.tdiv b

/-- Crossover point of the `ts < 16` comparison in the timestamp switch.
The Go code compares `math.Log10(float64(timestamp))` against 16.  An
exact evaluation of Go's `math.Log10` (which computes
`Log2(x) * (Ln2/Ln10)` over IEEE-754 doubles, with `Log` the classic
fdlibm natural logarithm) shows the comparison result for positive
int64 inputs is `t < 9999999999999958`: from that value upward the
combination of float64 conversion rounding and the logarithm's final
rounding yields exactly 16.0, and the behaviour is monotone.  The
corresponding comparisons against 10 and 13 agree exactly with the
integer thresholds 10^10 and 10^13 (exact powers of ten give exactly
10.0 and 13.0, so they fall in the upper band). -/
def nsCutoff : Int := 9999999999999958

/-- The timestamp-precision switch of `convertMetrics`
(src/main.go:224-239).  Branch guards translate the source's
`math.Log10(float64(timestamp))` comparisons:
a negative timestamp converts to a NaN logarithm, so every strict
comparison is false and the default (nanosecond) branch runs;
timestamp 0 gives -Inf, which is below 10, taking the seconds branch.
The seconds branch goes through `time.Unix(t, 0).UnixNano()`, i.e. the
64-bit-wrapped `t * 10^9`, before dividing by 10^6; the microseconds
branch computes the 64-bit-wrapped `t * 1000` divided by 10^6. -/
def normalizeTs (t : Int) : Int :=
  if t < 0 then goDiv t 1000000
  else if t < 10 ^ 10 then goDiv (wrap64 (t * 1000000000)) 1000000
  else if t < 10 ^ 13 then t
  else if t < nsCutoff then goDiv (wrap64 (t * 1000)) 1000000
  else goDiv t 1000000

/-- One tag of a metric point; `value` is a Go string inserted verbatim
by the `%v` formatting verb. -/
structure MetricTag where
  name : String
  value : String
deriving DecidableEq

/-- A metric point; `value` carries the `%v` rendering of the float64
sample value, `timestamp` the raw int64 timestamp. -/
structure MetricPoint where
  name : String
  value : String
  timestamp : Int
  tags : List MetricTag
deriving DecidableEq

/-- The metrics collection of an event (`corev2.Metrics`). -/
structure Metrics where
  points : List MetricPoint
deriving DecidableEq

/-- The handler's view of a Sensu event: its int64 timestamp, the
nil-able metrics collection (`Metrics` is a pointer in Go), and the
opaque output of `json.Marshal` on the full event record, a JSON object
text. -/
structure Event where
  timestamp : Int
  metrics : Option Metrics
  marshalled : String
deriving DecidableEq

/-- Result of a Go computation that can hit a nil-pointer dereference. -/
inductive GoResult (α : Type) where
  | ok : α → GoResult α
  | crash : GoResult α
deriving DecidableEq

/-- The tag-rendering loop of `convertMetrics` (src/main.go:217-223):
each tag renders as `name="value"`, with `", "` appended after every
tag except the one at index `len(point.Tags)-1`. -/
def renderTags : List MetricTag → String
  | [] => ""
  | [tag] => tag.name ++ "=\"" ++ tag.value ++ "\""
  | tag :: rest => tag.name ++ "=\"" ++ tag.value ++ "\", " ++ renderTags rest

/-- One exposition line of `convertMetrics` (src/main.go:240):
`name{tags} value timestamp` followed by a newline, with the timestamp
run through the precision switch. -/
def encodePoint (p : MetricPoint) : String :=
  p.name ++ "\x7b" ++ renderTags p.tags ++ "\x7d " ++ p.value ++ " "
    ++ toString (normalizeTs p.timestamp) ++ "\n"

/-- The accumulation loop of `convertMetrics`: `output += line` over the
points in order, starting from the empty string. -/
def encodePoints (points : List MetricPoint) : String :=
  points.foldl (fun output p => output ++ encodePoint p) ""

/-- `convertMetrics` (src/main.go:213-243).  The loop header ranges over
`event.Metrics.Points`, dereferencing the `Metrics` pointer: a nil
`Metrics` is a nil-pointer dereference and the function crashes.
Otherwise every point is rendered in order and the returned error is
always nil. -/
def convertMetrics (e : Event) : GoResult (String × Option String) :=
  match e.metrics with
  | none => .crash
  | some m => .ok (encodePoints m.points, none)

/-- The resolved plugin configuration (the `Config` struct of
src/main.go:19-34), with the fields the pipeline reads. -/
structure Config where
  url : String
  verbose : Bool
  dryRun : Bool
  alwaysSendLog : Bool
  disableSendLog : Bool
  disableSendMetrics : Bool
  format : String
  sourceName : String
  sourceHost : String
  sourceCategory : String
  metricDimensions : String
  metricMetadata : String
  logFields : String
deriving DecidableEq

/-- The two routing booleans computed by `executeHandler`. -/
structure Decision where
  doMetrics : Bool
  doLog : Bool
deriving DecidableEq

/-- The dispatch decision of `executeHandler` (src/main.go:179-186):
`doMetrics := len(dataString) > 0`, forced to false by
`DisableSendMetrics`; `doLog := AlwaysSendLog || len(dataString) == 0`,
forced to false by `DisableSendLog`. -/
def routeDecision (c : Config) (dataString : String) : Decision :=
  let doMetrics := decide (0 < dataString.length)
  let doMetrics := if c.disableSendMetrics then false else doMetrics
  let doLog := c.alwaysSendLog || dataString.length == 0
  let doLog := if c.disableSendLog then false else doLog
  ⟨doMetrics, doLog⟩

/-- Header list built by `sendMetrics` (src/main.go:247-262): the fixed
content type naming the exposition format, then each optional routing
header exactly when its configured value is non-empty. -/
def metricHeaders (c : Config) : List (String × String) :=
  [("Content-Type", "application/vnd.sumologic." ++ c.format)]
    ++ (if 0 < c.sourceHost.length then [("X-Sumo-Host", c.sourceHost)] else [])
    ++ (if 0 < c.sourceName.length then [("X-Sumo-Name", c.sourceName)] else [])
    ++ (if 0 < c.sourceCategory.length then [("X-Sumo-Category", c.sourceCategory)] else [])
    ++ (if 0 < c.metricDimensions.length then [("X-Sumo-Dimensions", c.metricDimensions)] else [])
    ++ (if 0 < c.metricMetadata.length then [("X-Sumo-Metadata", c.metricMetadata)] else [])

/-- Header list built by `sendLog` (src/main.go:289-301): only the
optional routing headers, each attached exactly when its configured
value is non-empty; no content-type header is added. -/
def logHeaders (c : Config) : List (String × String) :=
  (if 0 < c.sourceHost.length then [("X-Sumo-Host", c.sourceHost)] else [])
    ++ (if 0 < c.sourceName.length then [("X-Sumo-Name", c.sourceName)] else [])
    ++ (if 0 < c.sourceCategory.length then [("X-Sumo-Category", c.sourceCategory)] else [])
    ++ (if 0 < c.logFields.length then [("X-Sumo-Fields", c.logFields)] else [])

/-- An outbound HTTP request as assembled by the two send functions. -/
structure Request where
  method : String
  url : String
  headers : List (String × String)
  body : String
deriving DecidableEq

/-- Response of the HTTP client to one request: a status code, or a
transport-level failure with its error text. -/
inductive TransportResult where
  | status : Nat → TransportResult
  | failure : String → TransportResult
deriving DecidableEq

/-- Observable outcome of a send function: the requests actually handed
to the HTTP client, the requests whose details were printed as a
dry-run report, and the returned error. -/
structure Outcome where
  sent : List Request
  printed : List Request
  err : Option String
deriving DecidableEq

/-- Sequential composition of two delivery outcomes: traces
concatenate in order and the second delivery's error is returned. -/
def Outcome.seq (a b : Outcome) : Outcome :=
  ⟨a.sent ++ b.sent, a.printed ++ b.printed, b.err⟩

/-- The request `sendMetrics` builds for a payload. -/
def metricRequest (c : Config) (dataString : String) : Request :=
  ⟨"POST", c.url, metricHeaders c, dataString⟩

/-- The request `sendLog` builds for a payload. -/
def logRequest (c : Config) (body : String) : Request :=
  ⟨"POST", c.url, logHeaders c, body⟩

/-- `sendMetrics` (src/main.go:245-285), parametric in the HTTP
client's behaviour `net`.  With DryRun set, the request is not handed
to the client; its method, URL, headers and body (read back from the
request's buffered body, hence the exact payload) are printed and nil
is returned.  Otherwise the request is performed; a transport failure
or a status outside 200-299 becomes an error naming the destination. -/
def sendMetricsM (net : Request → TransportResult) (c : Config)
    (dataString : String) : Outcome :=
  let req := metricRequest c dataString
  if c.dryRun then ⟨[], [req], none⟩
  else
    match net req with
    | .failure e =>
        ⟨[req], [], some ("POST metrics to " ++ c.url ++ " failed: " ++ e)⟩
    | .status code =>
        if code < 200 ∨ code > 299 then
          ⟨[req], [], some ("POST metrics to " ++ c.url ++ " failed with status "
            ++ toString code)⟩
        else ⟨[req], [], none⟩

/-- `sendLog` (src/main.go:287-327), parametric in the HTTP client's
behaviour; same shape as `sendMetricsM` but with the log header set
and error prefix. -/
def sendLogM (net : Request → TransportResult) (c : Config)
    (body : String) : Outcome :=
  let req := logRequest c body
  if c.dryRun then ⟨[], [req], none⟩
  else
    match net req with
    | .failure e =>
        ⟨[req], [], some ("POST log to " ++ c.url ++ " failed: " ++ e)⟩
    | .status code =>
        if code < 200 ∨ code > 299 then
          ⟨[req], [], some ("POST log to " ++ c.url ++ " failed with status "
            ++ toString code)⟩
        else ⟨[req], [], none⟩

/-- `executeHandler` (src/main.go:173-211): convert the metrics (a
crash propagates, a conversion error returns immediately), take the
routing decision, run the metric delivery first when selected and
return its error without attempting anything further, then run the log
delivery on the marshalled event when selected.  Event marshalling is
carried as the event's `marshalled` field. -/
def executeHandlerM (net : Request → TransportResult) (c : Config)
    (e : Event) : GoResult Outcome :=
  match convertMetrics e with
  | .crash => .crash
  | .ok (dataString, convErr) =>
    match convErr with
    | some msg => .ok ⟨[], [], some msg⟩
    | none =>
      let d := routeDecision c dataString
      let afterMetrics : Outcome :=
        if d.doMetrics then sendMetricsM net c dataString else ⟨[], [], none⟩
      match afterMetrics.err with
      | some msg => .ok ⟨afterMetrics.sent, afterMetrics.printed, some msg⟩
      | none =>
        if d.doLog then .ok (afterMetrics.seq (sendLogM net c e.marshalled))
        else .ok afterMetrics

/-- Modelled from the spec: the Log Envelope Builder (spec 4.3 and 6).
The repository's newer revision carries it as `createLogMsg`, which
src/main_test.go exercises but which is defined in no source file under
src/; following the spec's words, the log body is the JSON text of a
fixed two-element array holding the normalized millisecond timestamp
wrapper first and the full original event second. -/
def specEnvelopeBody (e : Event) : String :=
  "[\x7b\"timestamp\":" ++ toString (normalizeTs e.timestamp)
    ++ "\x7d,\x7b\"event\":" ++ e.marshalled ++ "\x7d]"

/-- A configuration with every boolean flag false and every optional
string empty, as the flag defaults of src/main.go:44-155 produce
(format defaults to "prometheus"). -/
def defaultConfig : Config :=
  ⟨"", false, false, false, false, false, "prometheus", "", "", "", "", "", ""⟩

/-- Concrete event for the log-path fixture: no metric points, opaque
marshalled JSON object. -/
def logFixtureEvent : Event :=
  ⟨1624376039, some ⟨[]⟩, "\x7b\"check\":\"check1\"\x7d"⟩

/-- Concrete configuration for the header fixture: collector URL set,
a source host and log fields configured. -/
def headerFixtureConfig : Config :=
  { defaultConfig with
    url := "https://collector"
    sourceHost := "h1"
    logFields := "near=far" }

/-- Concrete event carrying one metric point, as in the repository's
own test fixture (name `answer`, value 42, one `foo`/`bar` tag,
nanosecond timestamp). -/
def metricFixtureEvent : Event :=
  ⟨1624376039, some ⟨[⟨"answer", "42", 1624376039373111122, [⟨"foo", "bar"⟩]⟩]⟩,
    "\x7b\"check\":\"check1\"\x7d"⟩

/-- Exposition payload of the metric fixture event. -/
def metricFixturePayload : String :=
  "answer\x7bfoo=\"bar\"\x7d 42 1624376039373\n"

/-- Configuration selecting both deliveries for the metric fixture:
always-send-log set, nothing disabled. -/
def bothChannelsConfig : Config :=
  { defaultConfig with url := "https://collector", alwaysSendLog := true }

/-- A dry-run configuration. -/
def dryRunConfig : Config :=
  { defaultConfig with url := "https://collector", dryRun := true }

/-! ## Helper lemmas -/

theorem foldl_append_eq_join (l : List String) (init : String) :
    l.foldl (fun r s => r ++ s) init = init ++ String.join l := by
  induction l generalizing init with
  | nil => simp [String.join]
  | cons a as ih =>
      simp only [List.foldl, String.join] at *
      rw [ih (init ++ a), ih ("" ++ a)]
      simp [String.append_assoc]

theorem join_cons (a : String) (l : List String) :
    String.join (a :: l) = a ++ String.join l := by
  have h1 : String.join (a :: l) = List.foldl (fun r s => r ++ s) ("" ++ a) l := rfl
  rw [h1, foldl_append_eq_join]
  simp

theorem encodePoints_eq_join (points : List MetricPoint) :
    encodePoints points = String.join (points.map encodePoint) := by
  unfold encodePoints
  rw [← List.foldl_map, foldl_append_eq_join]
  simp

theorem renderTags_eq_join_intersperse : ∀ tags : List MetricTag,
    renderTags tags
      = String.join (List.intersperse ", "
          (tags.map fun tag => tag.name ++ "=\"" ++ tag.value ++ "\""))
  | [] => rfl
  | [tag] => by simp [renderTags, String.join]
  | tag :: tag2 :: rest => by
      have ih := renderTags_eq_join_intersperse (tag2 :: rest)
      have hsplit : ("\", " : String) = "\"" ++ ", " := by decide
      simp only [renderTags, List.map, List.intersperse, join_cons] at ih ⊢
      rw [ih, hsplit]
      simp only [String.append_assoc]

/-! ## Claim theorems -/

/-- C1: the dispatch routing of `executeHandler` does not treat the log
channel as a function of its enablement flag alone.  With every flag at
its default (log sending enabled: nothing disabled, always-send-log
off), the same flag values give a false log decision on a non-empty
metric payload but a true one on an empty payload, so the log decision
depends on the metric payload; the metric half of the claim does hold
on this fixture. -/
theorem c1_router_log_decision_not_flag_alone :
    (routeDecision defaultConfig "x").doLog = false
      ∧ (routeDecision defaultConfig "").doLog = true
      ∧ (routeDecision defaultConfig "x").doMetrics = true
      ∧ (routeDecision defaultConfig "").doMetrics = false := by decide

/-- C2: on the log path `executeHandler` posts the bare
`json.Marshal(event)` output: at the concrete log-only fixture the one
outbound request's body is the event's marshalled object itself, which
is not the two-element timestamp/event envelope the claim mandates. -/
theorem c2_log_body_is_bare_event :
    executeHandlerM (fun _ => .status 200) headerFixtureConfig logFixtureEvent
        = .ok ⟨[logRequest headerFixtureConfig logFixtureEvent.marshalled], [], none⟩
      ∧ logFixtureEvent.marshalled ≠ specEnvelopeBody logFixtureEvent := by decide

/-- C3: in the seconds band the conversion runs through the
int64-wrapped nanosecond intermediate, so the ten-digit value
9999999999 - just below the seconds/milliseconds transition - comes out
as -8446744074709 instead of the 9999999999000 required by the claimed
`ts * 1000` band arithmetic. -/
theorem c3_seconds_band_transition_overflow :
    normalizeTs 9999999999 = -8446744074709
      ∧ normalizeTs 9999999999 ≠ 9999999999 * 1000 := by decide

/-- C4 (counterexample): 9500000000000000 lies in the microsecond band
but its multiply-then-reduce route overflows int64, so normalization
does not equal truncating division by 1000 there. -/
theorem c4_microsecond_overflow_counterexample :
    (10 : Int) ^ 13 ≤ 9500000000000000
      ∧ (9500000000000000 : Int) < 10 ^ 16
      ∧ normalizeTs 9500000000000000 ≠ goDiv 9500000000000000 1000 := by decide

/-- C4 (amended): for every timestamp of the microsecond band whose
value times 1000 still fits in int64 (ts ≤ 9223372036854775), the
multiply-then-reduce route through the nanosecond intermediate equals
direct truncating division by 1000; above that bound the wrapped
intermediate changes the result. -/
theorem c4_microsecond_band_reduces_exactly (t : Int)
    (h1 : 10 ^ 13 ≤ t) (h2 : t ≤ 9223372036854775) :
    normalizeTs t = goDiv t 1000 := by
  norm_num at h1
  have h0 : ¬ t < 0 := by omega
  have h10 : ¬ t < 10 ^ 10 := by norm_num; omega
  have h13 : ¬ t < 10 ^ 13 := by norm_num; omega
  have hcut : t < nsCutoff := by unfold nsCutoff; omega
  unfold normalizeTs
  rw [if_neg h0, if_neg h10, if_neg h13, if_pos hcut]
  have hw : wrap64 (t * 1000) = t * 1000 := by
    unfold wrap64
    norm_num
    omega
  rw [hw]
  unfold goDiv
  rw [Int.tdiv_eq_ediv (by omega) (by norm_num),
      Int.tdiv_eq_ediv (by omega) (by norm_num)]
  rw [show (1000000 : Int) = 1000 * 1000 by norm_num,
      Int.mul_ediv_mul_of_pos_left t 1000 (by norm_num)]

/-- C4 (witness): the repository's own microsecond test stamp
1624376039373111 satisfies the amended hypotheses and reduces to
1624376039373. -/
theorem c4_microsecond_band_witness :
    (10 : Int) ^ 13 ≤ 1624376039373111
      ∧ normalizeTs 1624376039373111 = goDiv 1624376039373111 1000 :=
  ⟨by norm_num,
    c4_microsecond_band_reduces_exactly 1624376039373111 (by norm_num) (by norm_num)⟩

/-- C5: `convertMetrics` is not total: an event whose metrics
collection is nil crashes (the loop header dereferences the nil
`Metrics` pointer), while an event with a collection but no points
does yield the empty payload and a nil error as the claim states. -/
theorem c5_nil_metrics_dereference :
    convertMetrics ⟨0, none, "\x7b\x7d"⟩ = GoResult.crash
      ∧ convertMetrics ⟨0, some ⟨[]⟩, "\x7b\x7d"⟩ = GoResult.ok ("", none) := by decide

/-- C6: the exposition payload is one line per point, in input order,
of the exact shape name, brace-wrapped tag list, value, normalized
timestamp and newline; tags render in insertion order, verbatim,
joined by a comma-space separator that never trails, and an empty tag
list renders as an empty brace pair. -/
theorem c6_exposition_line_format (points : List MetricPoint) :
    encodePoints points
      = String.join (points.map fun p =>
          p.name ++ "\x7b"
            ++ String.join (List.intersperse ", "
                (p.tags.map fun tag => tag.name ++ "=\"" ++ tag.value ++ "\""))
            ++ "\x7d " ++ p.value ++ " " ++ toString (normalizeTs p.timestamp)
            ++ "\n") := by
  rw [encodePoints_eq_join]
  have h : encodePoint = fun p : MetricPoint =>
      p.name ++ "\x7b"
        ++ String.join (List.intersperse ", "
            (p.tags.map fun tag => tag.name ++ "=\"" ++ tag.value ++ "\""))
        ++ "\x7d " ++ p.value ++ " " ++ toString (normalizeTs p.timestamp)
        ++ "\n" :=
    funext fun p => by simp [encodePoint, renderTags_eq_join_intersperse]
  rw [h]

/-- C7: `sendLog` attaches no content type at all: at a fixture with
routing headers configured, the log request's header list is non-empty
yet has no Content-Type entry (in particular none with value
application/json), while the metric request does carry the fixed
exposition content type. -/
theorem c7_log_request_has_no_content_type :
    (logHeaders headerFixtureConfig).filter (fun h => h.1 == "Content-Type") = []
      ∧ logHeaders headerFixtureConfig ≠ []
      ∧ (metricHeaders headerFixtureConfig).filter (fun h => h.1 == "Content-Type")
          = [("Content-Type", "application/vnd.sumologic.prometheus")] := by decide

/-- C8: with dry-run set, both send functions hand nothing to the HTTP
client - the outcome is the same whatever the client would answer -
print exactly the request that would have been sent (method POST,
destination URL, full header list and the unchanged payload as body)
and return no error. -/
theorem c8_dry_run_reports_without_network (net : Request → TransportResult)
    (c : Config) (dataString body : String) (h : c.dryRun = true) :
    sendMetricsM net c dataString = ⟨[], [metricRequest c dataString], none⟩
      ∧ sendLogM net c body = ⟨[], [logRequest c body], none⟩ := by
  unfold sendMetricsM sendLogM
  rw [h]
  simp

/-- C8 (witness): at a concrete dry-run configuration, with a client
double that would fail every request, both send functions report and
succeed without invoking it. -/
theorem c8_dry_run_witness :
    dryRunConfig.dryRun = true
      ∧ (sendMetricsM (fun _ => .failure "refused") dryRunConfig "m"
            = ⟨[], [metricRequest dryRunConfig "m"], none⟩
          ∧ sendLogM (fun _ => .failure "refused") dryRunConfig "l"
            = ⟨[], [logRequest dryRunConfig "l"], none⟩) :=
  ⟨rfl, c8_dry_run_reports_without_network (fun _ => .failure "refused")
    dryRunConfig "m" "l" rfl⟩

/-- C9: when routing selects both channels and dry-run is off, the
metric delivery runs strictly first: a client that fails the metric
request makes the handler return that failure having sent only the
metric request, never attempting the log request; a client that
accepts both yields the sent trace metric request then log request. -/
theorem c9_metric_first_fail_fast
    (net1 net2 : Request → TransportResult) (c : Config) (e : Event)
    (dataString msg : String)
    (hconv : convertMetrics e = .ok (dataString, none))
    (hm : (routeDecision c dataString).doMetrics = true)
    (hl : (routeDecision c dataString).doLog = true)
    (hdry : c.dryRun = false)
    (hfail : net1 (metricRequest c dataString) = .failure msg)
    (hok1 : net2 (metricRequest c dataString) = .status 200)
    (hok2 : net2 (logRequest c e.marshalled) = .status 200) :
    executeHandlerM net1 c e
        = .ok ⟨[metricRequest c dataString], [],
            some ("POST metrics to " ++ c.url ++ " failed: " ++ msg)⟩
      ∧ executeHandlerM net2 c e
        = .ok ⟨[metricRequest c dataString, logRequest c e.marshalled], [], none⟩ := by
  constructor
  · simp [executeHandlerM, hconv, hm, hl, sendMetricsM, hdry, hfail]
  · simp [executeHandlerM, hconv, hm, hl, sendMetricsM, sendLogM, hdry,
      hok1, hok2, Outcome.seq]

/-- C9 (witness): the repository's metric fixture with always-send-log
set selects both channels; a failing client yields only the metric
request and its failure, an accepting client yields the metric request
strictly before the log request. -/
theorem c9_metric_first_witness :
    convertMetrics metricFixtureEvent = .ok (metricFixturePayload, none)
      ∧ (routeDecision bothChannelsConfig metricFixturePayload).doMetrics = true
      ∧ (routeDecision bothChannelsConfig metricFixturePayload).doLog = true
      ∧ (executeHandlerM (fun _ => .failure "refused") bothChannelsConfig
            metricFixtureEvent
          = .ok ⟨[metricRequest bothChannelsConfig metricFixturePayload], [],
              some ("POST metrics to " ++ bothChannelsConfig.url ++ " failed: "
                ++ "refused")⟩
        ∧ executeHandlerM (fun _ => .status 200) bothChannelsConfig
            metricFixtureEvent
          = .ok ⟨[metricRequest bothChannelsConfig metricFixturePayload,
              logRequest bothChannelsConfig metricFixtureEvent.marshalled], [],
              none⟩) :=
  ⟨by decide, by decide, by decide,
    c9_metric_first_fail_fast (fun _ => .failure "refused") (fun _ => .status 200)
      bothChannelsConfig metricFixtureEvent metricFixturePayload "refused"
      (by decide) (by decide) (by decide) rfl rfl rfl rfl⟩

/-- C10: a negative raw timestamp makes the float logarithm NaN, every
band comparison false, and the default nanosecond branch divide by
10^6 with Go's truncate-toward-zero division; a zero timestamp gets
-Inf from the logarithm, falls into the seconds branch, and normalizes
to 0. -/
theorem c10_negative_timestamp_defaults_to_nanoseconds (t : Int) (h : t < 0) :
    normalizeTs t = goDiv t 1000000 ∧ normalizeTs 0 = 0 := by
  refine ⟨?_, by decide⟩
  unfold normalizeTs
  rw [if_pos h]

/-- C10 (witness): -5000001 is negative, normalizes through the
default branch, and the division truncates toward zero (-5, not the
floor -6). -/
theorem c10_negative_timestamp_witness :
    (-5000001 : Int) < 0
      ∧ (normalizeTs (-5000001) = goDiv (-5000001) 1000000
          ∧ normalizeTs 0 = 0)
      ∧ goDiv (-5000001) 1000000 = -5 :=
  ⟨by decide, c10_negative_timestamp_defaults_to_nanoseconds (-5000001) (by decide),
    by decide⟩

end SumoHandler
